import Mathlib

/-!
Shallow embedding of the wasmgroundup blog VM (files wasm-vm-01.js, the
unnamed first source file, and wasm-vm-02/wasm-vm.js).

Modelling conventions:
- JS numbers that flow through the VM are exact integers together with the
  special values Infinity, -Infinity, NaN and undefined; they are modelled by
  JSNum.  JSNum.int stands for a double holding an exact integer.  Double
  arithmetic on integers is exact as long as all operands and results stay
  within plus or minus 2 to the 53; all theorems below restrict to that range,
  where the integer model coincides with JS semantics.
- JS values stored on operand stacks and in locals are either I32 wrapper
  objects (class I32 of wasm-vm-01.js) or the raw value undefined (which
  Array.prototype.pop returns on an empty array); they are modelled by JSVal.
- Thrown JS exceptions are modelled by Except JSError.  JSError.typeError
  stands for the TypeErrors raised by reading a property of undefined or by
  calling a missing method; the other constructors correspond one-to-one to
  the explicit throw sites of the source.  State mutated before a throw is
  not observed by any theorem, so the Except encoding (which drops it) is
  adequate.
- JS arrays used as stacks (Stack.items, CallFrame.blocks, Instance.callStack)
  are modelled by Lean lists with the TOP at the HEAD; the end of the JS array
  corresponds to the head of the list.
-/

namespace WasmVM

/-- Models a JS number (or undefined) as it occurs in this VM: an exact
integer, one of the infinities, NaN, or undefined (the value of a field that
was never assigned, e.g. new I32() with no argument). -/
inductive JSNum where
  | int (n : Int)
  | inf
  | negInf
  | nan
  | undef
deriving DecidableEq, Repr

/-- Models a JS value held on an operand stack or in a local slot: either an
I32 wrapper object (class I32, field value) or the raw value undefined
(returned by Array.prototype.pop on an empty array and then possibly pushed
elsewhere). -/
inductive JSVal where
  | i32obj (value : JSNum)
  | undefined
deriving DecidableEq, Repr

/-- Models the distinct failure modes of the source.  typeError stands for any
TypeError raised by accessing a property of undefined or calling a missing
method; expectedI32OnTop is the Error thrown by Stack.assertTopIsOfType;
invalidLocalIndex and invalidGlobalIndex are the Errors thrown by
assertLocalIndexInRange and assertGlobalIndexInRange.  Note there is no
constructor for an invalid function index or for division by zero: the source
contains no such throw site. -/
inductive JSError where
  | typeError
  | expectedI32OnTop
  | invalidLocalIndex (index : Int)
  | invalidGlobalIndex (index : Int)
deriving DecidableEq, Repr

/-- Models JS array indexing a[i]: undefined (none) when i is negative or not
below the length. -/
def jsGet {α : Type} (l : List α) (i : Int) : Option α :=
  if i < 0 then none else l.get? i.toNat

/-- Models the JS addition c1 + c2 of wasm-vm-01.js i32.add on the numeric
values involved; exact on the integer fragment used by the theorems. -/
def jsAdd : JSNum → JSNum → JSNum
  | .int a, .int b => .int (a + b)
  | .inf, .int _ => .inf
  | .int _, .inf => .inf
  | .inf, .inf => .inf
  | .negInf, .int _ => .negInf
  | .int _, .negInf => .negInf
  | .negInf, .negInf => .negInf
  | _, _ => .nan

/-- Models the JS subtraction c1 - c2 of i32.sub. -/
def jsSub : JSNum → JSNum → JSNum
  | .int a, .int b => .int (a - b)
  | .inf, .int _ => .inf
  | .inf, .negInf => .inf
  | .int _, .inf => .negInf
  | .negInf, .int _ => .negInf
  | .int _, .negInf => .inf
  | .negInf, .inf => .negInf
  | _, _ => .nan

/-- Models the JS multiplication c1 * c2 of i32.mul. -/
def jsMul : JSNum → JSNum → JSNum
  | .int a, .int b => .int (a * b)
  | .inf, .int a => if 0 < a then .inf else if a < 0 then .negInf else .nan
  | .int a, .inf => if 0 < a then .inf else if a < 0 then .negInf else .nan
  | .negInf, .int a => if 0 < a then .negInf else if a < 0 then .inf else .nan
  | .int a, .negInf => if 0 < a then .negInf else if a < 0 then .inf else .nan
  | .inf, .inf => .inf
  | .inf, .negInf => .negInf
  | .negInf, .inf => .negInf
  | .negInf, .negInf => .inf
  | _, _ => .nan

/-- Models Math.trunc(c1 / c2) of i32.div_s as one operation.  For a zero
divisor JS division yields Infinity, -Infinity or NaN (for dividend positive,
negative, zero); for a nonzero divisor the truncated quotient of 32-bit-range
operands equals T-division (truncation toward zero), Int.tdiv. -/
def jsTruncDiv : JSNum → JSNum → JSNum
  | .int a, .int b =>
      if b = 0 then (if 0 < a then .inf else if a < 0 then .negInf else .nan)
      else .int (a.tdiv b)
  | .int _, .inf => .int 0
  | .int _, .negInf => .int 0
  | .inf, .int b => if 0 ≤ b then .inf else .negInf
  | .negInf, .int b => if 0 ≤ b then .negInf else .inf
  | _, _ => .nan

/-- Models JS strict equality c1 === c2 on these numeric values; NaN is equal
to nothing, undefined === undefined is true. -/
def jsStrictEq : JSNum → JSNum → Bool
  | .int a, .int b => a = b
  | .inf, .inf => true
  | .negInf, .negInf => true
  | .undef, .undef => true
  | _, _ => false

/-- Models JS strict inequality c1 !== c2 (i32.ne). -/
def jsStrictNe (a b : JSNum) : Bool := !(jsStrictEq a b)

/-- Models the JS comparison c1 < c2; any comparison involving NaN (or
undefined, which coerces to NaN) is false. -/
def jsLt : JSNum → JSNum → Bool
  | .int a, .int b => a < b
  | .int _, .inf => true
  | .negInf, .int _ => true
  | .negInf, .inf => true
  | _, _ => false

/-- Models the JS comparison c1 > c2. -/
def jsGt (a b : JSNum) : Bool := jsLt b a

/-- Models the JS comparison c1 <= c2; false whenever NaN or undefined is
involved. -/
def jsLe : JSNum → JSNum → Bool
  | .int a, .int b => a ≤ b
  | .int _, .inf => true
  | .inf, .inf => true
  | .negInf, .int _ => true
  | .negInf, .inf => true
  | .negInf, .negInf => true
  | _, _ => false

/-- Models the JS comparison c1 >= c2. -/
def jsGe (a b : JSNum) : Bool := jsLe b a

/-- Models the JS test condValue !== 0 applied to a NUMBER (as in the if
instruction, which reads .value first): every number other than 0 passes, and
NaN, the infinities and undefined also pass. -/
def jsNumNeqZero : JSNum → Bool
  | .int n => n ≠ 0
  | _ => true

/-- Models class Stack of wasm-vm-01.js: this.items, a JS array used as a
LIFO.  The head of the list is the top of the stack (the end of the JS
array). -/
abbrev Stack := List JSVal

/-- Models Stack.push: this.items.push(value). -/
def Stack.push (s : Stack) (v : JSVal) : Stack := v :: s

/-- Models Stack.pop: this.items.pop().  On an empty array JS returns
undefined and leaves the array empty; no exception is thrown. -/
def Stack.pop : Stack → JSVal × Stack
  | [] => (.undefined, [])
  | v :: s => (v, s)

/-- Models Stack.peek: this.items.at(-1); undefined on an empty array. -/
def Stack.peek : Stack → JSVal
  | [] => .undefined
  | v :: _ => v

/-- Models Stack.topIsOfType(I32): this.peek() instanceof I32.  The value
undefined is not an instance of I32. -/
def Stack.topIsI32 : Stack → Bool
  | .i32obj _ :: _ => true
  | _ => false

/-- Models Stack.popI32 = popType(I32): assertTopIsOfType(I32) throws the
Error Expected I32 on top of stack unless the top is an I32 object, then
pop.  Returns the popped I32 wrapper object. -/
def Stack.popI32 : Stack → Except JSError (JSVal × Stack)
  | .i32obj v :: s => .ok (.i32obj v, s)
  | _ => .error .expectedI32OnTop

/-- Like Stack.popI32 but returning the unwrapped .value field, as the binop
evaluators use it (c1.value, c2.value). -/
def Stack.popI32N : Stack → Except JSError (JSNum × Stack)
  | .i32obj v :: s => .ok (v, s)
  | _ => .error .expectedI32OnTop

/-- Models the type lists of Func (fn.args, fn.returns, fn.locals): the only
value class in the source is I32. -/
inductive ValType where
  | i32
deriving DecidableEq, Repr

/-- Models the JS value stored in a BlockFrame.type slot: either the literal
empty array [] (as passed by block, loop and if) or a pair [params, results]
(the default [[], []] of the BlockFrame constructor, or [fn.args, fn.returns]
as passed by callFunction).  The field is never read by the source. -/
inductive JSBlockType where
  | emptyArr
  | pairArr (params results : List ValType)
deriving DecidableEq, Repr

/-- Models the instructions of the source as a closed enumeration.  In JS each
instruction is an Instruction object carrying an evaluation closure; the
arithmetic and comparison instructions built by binop and relop are
represented by constructors carrying the JS function on the unwrapped
values.  wasm-vm-01.js i32.add is written out by hand but its body is exactly
the binop pattern specialised to addition, so it is represented as
binop jsAdd. -/
inductive Instr where
  | nop
  | drop
  | i32const (value : Int)
  | binop (f : JSNum → JSNum → JSNum)
  | relop (f : JSNum → JSNum → Bool)
  | block
  | loop
  | if_
  | else_
  | end_
  | br (labelidx : Int)
  | br_if (labelidx : Int)
  | call (index : Int)
  | localGet (index : Int)
  | localSet (index : Int)
  | localTee (index : Int)
  | globalGet (index : Int)
  | globalSet (index : Int)

namespace i32

/-- Models i32.const(value): pushes i32(imm). -/
def const (value : Int) : Instr := .i32const value

/-- Models i32.add (hand-written in wasm-vm-01.js with the binop body). -/
def add : Instr := .binop jsAdd

/-- Models i32.sub = binop(0x6b, ..., (c1, c2) => c1 - c2). -/
def sub : Instr := .binop jsSub

/-- Models i32.mul = binop(0x6c, ..., (c1, c2) => c1 * c2). -/
def mul : Instr := .binop jsMul

/-- Models i32.div_s = binop(0x6d, ..., (c1, c2) => Math.trunc(c1 / c2)). -/
def div_s : Instr := .binop jsTruncDiv

/-- Models i32.eq = relop(0x46, ..., (c1, c2) => c1 === c2). -/
def eq : Instr := .relop jsStrictEq

/-- Models i32.ne = relop(0x47, ..., (c1, c2) => c1 !== c2). -/
def ne : Instr := .relop jsStrictNe

/-- Models i32.lt_s = relop(0x48, ..., (c1, c2) => c1 < c2). -/
def lt_s : Instr := .relop jsLt

/-- Models i32.gt_s = relop(0x4a, ..., (c1, c2) => c1 > c2). -/
def gt_s : Instr := .relop jsGt

/-- Models i32.le_s = relop(0x4c, ..., (c1, c2) => c1 <= c2). -/
def le_s : Instr := .relop jsLe

/-- Models i32.ge_s = relop(0x4e, ..., (c1, c2) => c1 >= c2). -/
def ge_s : Instr := .relop jsGe

end i32

/-- Models the evaluation body produced by binop(opcode, name, fn): pop c2,
pop c1 (both through popI32, whose type assertion may throw), compute
fn(c1.value, c2.value), push the i32-wrapped result. -/
def binopEval (f : JSNum → JSNum → JSNum) (s : Stack) :
    Except JSError Stack := do
  let (c2, s) ← Stack.popI32N s
  let (c1, s) ← Stack.popI32N s
  .ok (Stack.push s (.i32obj (f c1 c2)))

/-- Models relop(opcode, name, fn) = binop(opcode, name,
(c1, c2) => fn(c1, c2) ? 1 : 0). -/
def relopEval (f : JSNum → JSNum → Bool) (s : Stack) :
    Except JSError Stack :=
  binopEval (fun c1 c2 => if f c1 c2 then .int 1 else .int 0) s

/-- Models class VM of wasm-vm-01.js: a single operand stack, an instruction
list and a program counter.  The pc is a JS number, modelled as Int. -/
structure VM where
  stack : Stack
  instructions : List Instr
  pc : Int

/-- Models the VM constructor: new VM(instructions). -/
def VM.new (instructions : List Instr) : VM :=
  { stack := [], instructions := instructions, pc := 0 }

/-- Models instruction.eval(vm) where vm is a plain VM of wasm-vm-01.js.
Instructions that call methods the VM does not have (findMatchingEndPc,
pushFrame, breakToLabel, callFunction, or that read vm.locals and vm.globals,
which are undefined) raise TypeErrors. -/
def VM.evalInstr : Instr → VM → Except JSError VM
  | .nop, vm => .ok vm
  | .drop, vm => .ok { vm with stack := (Stack.pop vm.stack).2 }
  | .i32const n, vm => .ok { vm with stack := Stack.push vm.stack (.i32obj (.int n)) }
  | .binop f, vm => do
      let s ← binopEval f vm.stack
      .ok { vm with stack := s }
  | .relop f, vm => do
      let s ← relopEval f vm.stack
      .ok { vm with stack := s }
  | _, _ => .error .typeError

/-- Models VM.step: look up instructions[this.pc] (undefined out of range, so
calling .eval on it throws a TypeError), evaluate it, then this.pc += 1. -/
def VM.step (vm : VM) : Except JSError VM :=
  match jsGet vm.instructions vm.pc with
  | none => .error .typeError
  | some i => do
      let vm' ← VM.evalInstr i vm
      .ok { vm' with pc := vm'.pc + 1 }

/-- Models VM.steps(count): step count times. -/
def VM.stepsN : Nat → VM → Except JSError VM
  | 0, vm => .ok vm
  | n + 1, vm => do
      let vm' ← VM.stepsN n vm
      vm'.step

/-- Models class BlockFrame (extends Stack): its own items array plus the
block type and the branch target pc. -/
structure BlockFrame where
  items : Stack
  type : JSBlockType
  breakTargetPc : Int
deriving DecidableEq, Repr

/-- Models class CallFrame: the stack of BlockFrames (head of the list =
this.blocks.at(-1), the current block), the instruction list, the locals
array and the pc. -/
structure CallFrame where
  blocks : List BlockFrame
  instructions : List Instr
  locals : List JSVal
  pc : Int

/-- Models the CallFrame constructor: a single root BlockFrame with the given
block type and branch target instructions.length - 1, pc = 0. -/
def CallFrame.create (instructions : List Instr) (locals : List JSVal)
    (rootBlockType : JSBlockType) : CallFrame :=
  { blocks := [⟨[], rootBlockType, (instructions.length : Int) - 1⟩],
    instructions := instructions, locals := locals, pc := 0 }

/-- Models CallFrame.finished: this.pc === this.instructions.length. -/
def CallFrame.finished (cf : CallFrame) : Bool :=
  cf.pc == (cf.instructions.length : Int)

/-- Models CallFrame.pushFrame(frame): this.blocks.push(frame). -/
def CallFrame.pushFrame (cf : CallFrame) (b : BlockFrame) : CallFrame :=
  { cf with blocks := b :: cf.blocks }

/-- Models CallFrame.push(value) = this.currentBlock.push(value); a TypeError
if this.blocks is empty (currentBlock is undefined). -/
def CallFrame.pushJS (cf : CallFrame) (v : JSVal) : Except JSError CallFrame :=
  match cf.blocks with
  | [] => .error .typeError
  | b :: bs => .ok { cf with blocks := { b with items := Stack.push b.items v } :: bs }

/-- Models CallFrame.pop() = this.currentBlock.pop(). -/
def CallFrame.popJS (cf : CallFrame) : Except JSError (JSVal × CallFrame) :=
  match cf.blocks with
  | [] => .error .typeError
  | b :: bs =>
      let (v, items') := Stack.pop b.items
      .ok (v, { cf with blocks := { b with items := items' } :: bs })

/-- Models CallFrame.peek() = this.currentBlock.peek(). -/
def CallFrame.peekJS (cf : CallFrame) : Except JSError JSVal :=
  match cf.blocks with
  | [] => .error .typeError
  | b :: _ => .ok (Stack.peek b.items)

/-- Models CallFrame.popI32() = this.currentBlock.popI32(), returning the I32
wrapper object. -/
def CallFrame.popI32JS (cf : CallFrame) : Except JSError (JSVal × CallFrame) :=
  match cf.blocks with
  | [] => .error .typeError
  | b :: bs =>
      match Stack.popI32 b.items with
      | .error e => .error e
      | .ok (v, items') => .ok (v, { cf with blocks := { b with items := items' } :: bs })

/-- Runs a stack transformer on the current block of a call frame (the shape
shared by the binop and relop evaluation bodies, whose pops and pushes all go
through this.currentBlock). -/
def CallFrame.onStack (cf : CallFrame)
    (f : Stack → Except JSError Stack) : Except JSError CallFrame :=
  match cf.blocks with
  | [] => .error .typeError
  | b :: bs => do
      let items' ← f b.items
      .ok { cf with blocks := { b with items := items' } :: bs }

/-- Models the loop body of CallFrame.findMatchingEndPc and
findMatchingElsePc.  Each iteration advances pc by one and destructures
instructions[pc], which throws a TypeError when out of range.  elseMode
selects the else-scan (closer: else, opener: if) versus the end-scan (closer:
end, openers: block, loop, if).  The fuel only bounds the recursion; with the
fuel supplied by the callers below it runs out exactly when the scan would
already have read past the end of the instruction array, which in JS is the
same TypeError. -/
def scanAux (instrs : List Instr) (elseMode : Bool) :
    Nat → Nat → Int → Except JSError Int
  | _, 0, pc => .ok pc
  | 0, _ + 1, _ => .error .typeError
  | fuel + 1, remaining + 1, pc =>
      let pc' := pc + 1
      match jsGet instrs pc' with
      | none => .error .typeError
      | some i =>
          let r' : Nat :=
            if elseMode then
              match i with
              | .else_ => remaining
              | .if_ => remaining + 2
              | _ => remaining + 1
            else
              match i with
              | .end_ => remaining
              | .block => remaining + 2
              | .loop => remaining + 2
              | .if_ => remaining + 2
              | _ => remaining + 1
          scanAux instrs elseMode fuel r' pc'

/-- Models CallFrame.findMatchingEndPc: scan forward from this.pc with a depth
counter starting at 1. -/
def CallFrame.findMatchingEndPc (cf : CallFrame) : Except JSError Int :=
  scanAux cf.instructions false ((cf.instructions.length + 1 - cf.pc).toNat) 1 cf.pc

/-- Models CallFrame.findMatchingElsePc. -/
def CallFrame.findMatchingElsePc (cf : CallFrame) : Except JSError Int :=
  scanAux cf.instructions true ((cf.instructions.length + 1 - cf.pc).toNat) 1 cf.pc

/-- Models CallFrame.breakToLabel(labelidx): one popFrame, then labelidx more
(a negative labelidx skips the while loop, so exactly one pop), and pc is set
to the breakTargetPc of the last frame popped.  If the blocks array runs out,
the last popFrame returned undefined and reading its breakTargetPc throws a
TypeError. -/
def CallFrame.breakToLabel (cf : CallFrame) (labelidx : Int) :
    Except JSError CallFrame :=
  match cf.blocks.get? labelidx.toNat with
  | none => .error .typeError
  | some bf =>
      .ok { cf with blocks := cf.blocks.drop (labelidx.toNat + 1),
                    pc := bf.breakTargetPc }

/-- Models assertLocalIndexInRange(locals, index): throws the Error Invalid
local index when index < 0 or index >= locals.length. -/
def assertLocalIndexInRange (locals : List JSVal) (index : Int) :
    Except JSError Unit :=
  if index < 0 ∨ (locals.length : Int) ≤ index then
    .error (.invalidLocalIndex index)
  else .ok ()

/-- Models assertGlobalIndexInRange(globals, index): throws the Error Invalid
global index when index < 0 or index >= globals.length. -/
def assertGlobalIndexInRange (globals : List JSVal) (index : Int) :
    Except JSError Unit :=
  if index < 0 ∨ (globals.length : Int) ≤ index then
    .error (.invalidGlobalIndex index)
  else .ok ()

/-- Models instruction.eval(vm) where vm is a CallFrame (as in the CallFrame
tests of wasm-vm-02.js).  call, global.get and global.set use methods or
fields the CallFrame does not have and throw TypeErrors.  In br_if the source
compares the popped I32 OBJECT (popI32 without .value) with the number 0
using !==; an object is never strictly equal to a number, so the condition is
always true and br_if unconditionally branches. -/
def CallFrame.evalInstr : Instr → CallFrame → Except JSError CallFrame
  | .nop, cf => .ok cf
  | .drop, cf => do
      let (_, cf') ← cf.popJS
      .ok cf'
  | .i32const n, cf => cf.pushJS (.i32obj (.int n))
  | .binop f, cf => cf.onStack (binopEval f)
  | .relop f, cf => cf.onStack (relopEval f)
  | .block, cf => do
      let target ← cf.findMatchingEndPc
      .ok (cf.pushFrame ⟨[], .emptyArr, target⟩)
  | .loop, cf => .ok (cf.pushFrame ⟨[], .emptyArr, cf.pc - 1⟩)
  | .if_, cf => do
      let (c, cf) ← cf.popI32JS
      let cv := match c with
        | .i32obj v => v
        | .undefined => .undef
      if jsNumNeqZero cv then
        let target ← cf.findMatchingEndPc
        .ok (cf.pushFrame ⟨[], .emptyArr, target⟩)
      else
        let elsePc ← cf.findMatchingElsePc
        let cf := { cf with pc := elsePc }
        let target ← cf.findMatchingEndPc
        .ok (cf.pushFrame ⟨[], .emptyArr, target⟩)
  | .else_, cf =>
      match cf.blocks with
      | [] => .error .typeError
      | b :: bs => .ok { cf with blocks := bs, pc := b.breakTargetPc }
  | .end_, cf => .ok { cf with blocks := cf.blocks.tail }
  | .br l, cf => cf.breakToLabel l
  | .br_if l, cf => do
      let (_condObj, cf) ← cf.popI32JS
      cf.breakToLabel l
  | .call _, _ => .error .typeError
  | .localGet i, cf => do
      let _ ← assertLocalIndexInRange cf.locals i
      cf.pushJS ((jsGet cf.locals i).getD .undefined)
  | .localSet i, cf => do
      let _ ← assertLocalIndexInRange cf.locals i
      let (v, cf') ← cf.popJS
      .ok { cf' with locals := cf'.locals.set i.toNat v }
  | .localTee i, cf => do
      let _ ← assertLocalIndexInRange cf.locals i
      let v ← cf.peekJS
      .ok { cf with locals := cf.locals.set i.toNat v }
  | .globalGet _, _ => .error .typeError
  | .globalSet _, _ => .error .typeError

/-- Models CallFrame.step: evaluate instructions[this.pc] (TypeError when out
of range), then this.pc += 1 (also after a branch rewrote pc). -/
def CallFrame.step (cf : CallFrame) : Except JSError CallFrame :=
  match jsGet cf.instructions cf.pc with
  | none => .error .typeError
  | some i => do
      let cf' ← CallFrame.evalInstr i cf
      .ok { cf' with pc := cf'.pc + 1 }

/-- Iterates CallFrame.step n times (the shape of CallFrame.run and of the
repeated vm.step() calls in the tests). -/
def CallFrame.stepsN : Nat → CallFrame → Except JSError CallFrame
  | 0, cf => .ok cf
  | n + 1, cf => do
      let cf' ← CallFrame.stepsN n cf
      cf'.step

/-- Models class Func: args, returns, locals (lists of value classes) and the
instruction list. -/
structure Func where
  args : List ValType
  returns : List ValType
  locals : List ValType
  instructions : List Instr

/-- Models class Instance: the call stack (head = this.callStack.at(-1), the
current frame), the function table and the globals array. -/
structure Instance where
  callStack : List CallFrame
  functions : List Func
  globals : List JSVal

/-- Models new Instance(): all three arrays empty. -/
def Instance.new : Instance := { callStack := [], functions := [], globals := [] }

/-- Models the argument-passing loop of Instance.callFunction: fn.args.length
times, pop a value from the calling frame (its current block; an empty block
stack there is a TypeError, an empty items array just pops undefined) and
push it onto the called frame (its root block). -/
def popPushArgs : Nat → CallFrame → CallFrame →
    Except JSError (CallFrame × CallFrame)
  | 0, caller, called => .ok (caller, called)
  | n + 1, caller, called => do
      let (v, caller') ← caller.popJS
      let called' ← called.pushJS v
      popPushArgs n caller' called'

/-- Models Instance.callFunction(index).  functions[index] is undefined when
index is out of range, and reading fn.instructions then throws a TypeError:
there is no InvalidFunctionIndex check in the source.  The called frame's
locals are fn.locals.map(T => new T()), fresh I32 objects whose value field
is undefined; the popped arguments are pushed onto the called frame's root
BLOCK (calledFrame.push), not stored into locals.  With an empty call stack
the calling frame is undefined: fine while fn.args is empty (the loop body
never runs), a TypeError otherwise. -/
def Instance.callFunction (inst : Instance) (index : Int) :
    Except JSError Instance :=
  match jsGet inst.functions index with
  | none => .error .typeError
  | some fn =>
      let calledFrame := CallFrame.create fn.instructions
        (fn.locals.map (fun _ => JSVal.i32obj .undef))
        (.pairArr fn.args fn.returns)
      match inst.callStack with
      | [] =>
          if fn.args.length = 0 then
            .ok { inst with callStack := [calledFrame] }
          else .error .typeError
      | caller :: rest => do
          let (caller', called') ← popPushArgs fn.args.length caller calledFrame
          .ok { inst with callStack := called' :: caller' :: rest }

/-- Applies a CallFrame transformer to the current frame of an Instance; a
TypeError when the call stack is empty (currentFrame undefined).  This is the
shape of the Instance runtime-interface methods push, pop, popI32 and
breakToLabel, which all delegate to this.currentFrame. -/
def Instance.onFrame (inst : Instance)
    (f : CallFrame → Except JSError CallFrame) : Except JSError Instance :=
  match inst.callStack with
  | [] => .error .typeError
  | cf :: rest => do
      let cf' ← f cf
      .ok { inst with callStack := cf' :: rest }

/-- Models Instance.popI32() = this.currentFrame.popI32(). -/
def Instance.popI32JS (inst : Instance) :
    Except JSError (JSVal × Instance) :=
  match inst.callStack with
  | [] => .error .typeError
  | cf :: rest => do
      let (v, cf') ← cf.popI32JS
      .ok (v, { inst with callStack := cf' :: rest })

/-- Models Instance.pop() = this.currentFrame.pop(). -/
def Instance.popJS (inst : Instance) : Except JSError (JSVal × Instance) :=
  match inst.callStack with
  | [] => .error .typeError
  | cf :: rest => do
      let (v, cf') ← cf.popJS
      .ok (v, { inst with callStack := cf' :: rest })

/-- Models instruction.eval(rt) where rt is an Instance (Instance.step passes
this).  Stack and branch operations delegate to the current frame.  The
Instance has NO pushFrame or popFrame method and no locals field, so block,
loop, if, else, end and the local.* instructions throw TypeErrors at Instance
level (block and if only after their forward scans, which run first and can
themselves throw).  global.get validates against the globals array but via
assertLocalIndexInRange (the source calls the local-index assertion here), so
its out-of-range error is the Invalid local index Error; global.set uses
assertGlobalIndexInRange. -/
def Instance.evalInstr : Instr → Instance → Except JSError Instance
  | .nop, inst => .ok inst
  | .drop, inst => inst.onFrame (fun cf => do
      let (_, cf') ← cf.popJS
      .ok cf')
  | .i32const n, inst => inst.onFrame (fun cf => cf.pushJS (.i32obj (.int n)))
  | .binop f, inst => inst.onFrame (fun cf => cf.onStack (binopEval f))
  | .relop f, inst => inst.onFrame (fun cf => cf.onStack (relopEval f))
  | .block, inst => do
      match inst.callStack with
      | [] => .error .typeError
      | cf :: _ => do
          let _ ← cf.findMatchingEndPc
          .error .typeError
  | .loop, _ => .error .typeError
  | .if_, inst => do
      let (_, inst') ← inst.popI32JS
      match inst'.callStack with
      | [] => .error .typeError
      | _ => .error .typeError
  | .else_, _ => .error .typeError
  | .end_, _ => .error .typeError
  | .br l, inst => inst.onFrame (fun cf => cf.breakToLabel l)
  | .br_if l, inst => inst.onFrame (fun cf => do
      let (_condObj, cf') ← cf.popI32JS
      cf'.breakToLabel l)
  | .call idx, inst => inst.callFunction idx
  | .localGet _, _ => .error .typeError
  | .localSet _, _ => .error .typeError
  | .localTee _, _ => .error .typeError
  | .globalGet i, inst => do
      let _ ← assertLocalIndexInRange inst.globals i
      inst.onFrame (fun cf => cf.pushJS ((jsGet inst.globals i).getD .undefined))
  | .globalSet i, inst => do
      let _ ← assertGlobalIndexInRange inst.globals i
      let (v, inst') ← inst.popJS
      .ok { inst' with globals := inst'.globals.set i.toNat v }

/-- Increments the pc of the call frame at the given depth from the top of the
call stack.  Instance.step holds a REFERENCE to the pre-eval current frame
and increments that frame's pc after eval; if eval pushed a new frame (only
call does), the referenced frame now sits one below the top. -/
def bumpPcAt : List CallFrame → Nat → List CallFrame
  | [], _ => []
  | cf :: rest, 0 => { cf with pc := cf.pc + 1 } :: rest
  | cf :: rest, n + 1 => cf :: bumpPcAt rest n

/-- Models Instance.step.  After eval and the pc increment of the pre-eval
frame, if the (possibly new) current frame is finished it is popped; when the
remaining call stack is non-empty the source then runs
while (frame.currentBlock.size > 0) to transfer return values — but class
Stack has NO size property, so frame.currentBlock.size is undefined,
undefined > 0 is false, and the loop body NEVER executes (reading .size of
currentBlock does throw a TypeError in the degenerate case that the finished
frame has an empty blocks array).  No values are transferred. -/
def Instance.step (inst : Instance) : Except JSError Instance :=
  match inst.callStack with
  | [] => .error .typeError
  | frame :: _ =>
      match jsGet frame.instructions frame.pc with
      | none => .error .typeError
      | some i => do
          let inst' ← Instance.evalInstr i inst
          let d := inst'.callStack.length - inst.callStack.length
          let inst'' := { inst' with callStack := bumpPcAt inst'.callStack d }
          match inst''.callStack with
          | [] => .error .typeError
          | newCur :: rest =>
              if newCur.finished then
                if 0 < rest.length then
                  match newCur.blocks with
                  | [] => .error .typeError
                  | _ :: _ => .ok { inst'' with callStack := rest }
                else .ok { inst'' with callStack := rest }
              else .ok inst''

/-- Iterates Instance.step n times. -/
def Instance.stepsN : Nat → Instance → Except JSError Instance
  | 0, inst => .ok inst
  | n + 1, inst => do
      let inst' ← Instance.stepsN n inst
      inst'.step

/-- Projection used by theorems: the operand-stack contents of every block of
every call frame (top-first at every level) together with each frame's locals
and pc.  Mirrors instanceToData/callFrameToData up to list orientation and
keeps the comparison free of the function-valued instruction payloads. -/
def instanceData (r : Except JSError Instance) :
    Except JSError (List (List Stack × List JSVal × Int)) :=
  r.map (fun inst =>
    inst.callStack.map (fun cf => (cf.blocks.map BlockFrame.items, cf.locals, cf.pc)))

/-! Helper lemmas shared by the claim theorems below. -/

/-- The argument-passing loop of callFunction pops n values from the calling
frame's current block (top first) and pushes each onto the called frame's
current block, so the transferred values end up reversed on top of the called
frame's block. -/
theorem popPushArgs_spec (n : Nat) (b : BlockFrame) (bs : List BlockFrame)
    (ins : List Instr) (loc : List JSVal) (p : Int)
    (c : BlockFrame) (cs : List BlockFrame) (ins' : List Instr)
    (loc' : List JSVal) (p' : Int)
    (h : n ≤ b.items.length) :
    popPushArgs n ⟨b :: bs, ins, loc, p⟩ ⟨c :: cs, ins', loc', p'⟩ =
      .ok (⟨{ b with items := b.items.drop n } :: bs, ins, loc, p⟩,
           ⟨{ c with items := (b.items.take n).reverse ++ c.items } :: cs,
             ins', loc', p'⟩) := by
  induction n generalizing b c with
  | zero => simp [popPushArgs]
  | succ n ih =>
      obtain ⟨items, ty, tp⟩ := b
      match items, h with
      | v :: t, h =>
        have step1 :
            popPushArgs (n + 1) ⟨⟨v :: t, ty, tp⟩ :: bs, ins, loc, p⟩
                ⟨c :: cs, ins', loc', p'⟩ =
              popPushArgs n ⟨⟨t, ty, tp⟩ :: bs, ins, loc, p⟩
                ⟨{ c with items := Stack.push c.items v } :: cs, ins', loc', p'⟩ := rfl
        rw [step1, ih ⟨t, ty, tp⟩ { c with items := Stack.push c.items v }
          (by simpa using Nat.le_of_succ_le_succ h)]
        simp [Stack.push, List.reverse_cons, List.append_assoc]

/-- A CallFrame positioned on a loop instruction that is immediately followed
by br(0) returns to exactly its starting state after two steps: loop pushes a
BlockFrame with branch target pc - 1, and br(0) pops it and sets pc to that
target, after which the step increment restores pc. -/
theorem loop_br_two_step (cf : CallFrame) (p : Int)
    (hpc : cf.pc = p)
    (hloop : jsGet cf.instructions p = some .loop)
    (hbr : jsGet cf.instructions (p + 1) = some (.br 0)) :
    cf.step = .ok { cf with blocks := ⟨[], .emptyArr, p - 1⟩ :: cf.blocks, pc := p + 1 }
    ∧ CallFrame.step { cf with blocks := ⟨[], .emptyArr, p - 1⟩ :: cf.blocks, pc := p + 1 }
        = .ok cf := by
  subst hpc
  constructor
  · unfold CallFrame.step
    rw [hloop]
    rfl
  · unfold CallFrame.step
    simp only
    rw [hbr]
    show Except.ok
        { blocks := cf.blocks, instructions := cf.instructions,
          locals := cf.locals, pc := cf.pc - 1 + 1 } = Except.ok cf
    rw [Int.sub_add_cancel]

/-! Claim theorems. -/

/-- Claim C1: the claim states that when a finished call frame is popped with
a non-empty call stack remaining, all values on its current control frame are
transferred to the new active frame, so that the fn1/fn2 scenario ends with
the caller's stack holding 15.  The CODE DOES NOT DO THIS: the transfer loop
condition reads frame.currentBlock.size, but class Stack has no size
property, so the condition is undefined > 0, always false, and no value is
ever transferred.  Stepping the claim's own scenario (which is also the
repository's test, expecting [[[15]]]) to completion leaves the caller's
(now sole) frame with an EMPTY operand stack. -/
theorem C1_return_values_not_transferred :
    instanceData ((Instance.callFunction
        ⟨[], [⟨[], [], [], [i32.const 10, .call 1]⟩,
              ⟨[.i32], [.i32], [], [i32.const 5, i32.add]⟩], []⟩ 0)
      >>= Instance.stepsN 4) = .ok [([[]], [], 2)]
    ∧ ([(([[]] : List Stack), ([] : List JSVal), (2 : Int))] :
        List (List Stack × List JSVal × Int))
      ≠ [([[JSVal.i32obj (.int 15)]], [], 2)] :=
  ⟨rfl, by decide⟩

/-- Claim C2 (counterexample): calling a one-parameter function from a frame
whose stack holds i32(7) produces a called frame whose LOCALS ARE EMPTY and
whose root control frame's operand stack holds the argument: the popped
arguments are not stored into the locals storage, contradicting the claim. -/
theorem C2_counterexample_args_bypass_locals :
    instanceData (Instance.callFunction
        ⟨[⟨[⟨[.i32obj (.int 7)], .emptyArr, 0⟩], [.nop], [], 0⟩],
          [⟨[], [], [], [.nop]⟩, ⟨[.i32], [.i32], [], [.nop]⟩], []⟩ 1)
      = .ok [([[JSVal.i32obj (.int 7)]], [], 0), ([[]], [], 0)]
    ∧ ([] : List JSVal) ≠ [JSVal.i32obj (.int 7)] :=
  ⟨rfl, by decide⟩

/-- Claim C2 (amended): for every function with n declared parameters,
callFunction(index) pops n values, top first, from the calling frame's
current control frame and pushes them in pop order onto the called frame's
root control frame's OPERAND STACK (so they sit there in reversed order);
the called frame's locals are initialized to fresh I32 objects with
undefined value, one per declared local type, and do not receive the
arguments. -/
theorem C2_call_arguments_go_to_operand_stack (inst : Instance) (idx : Int)
    (fn : Func) (caller : CallFrame) (rest : List CallFrame) (b : BlockFrame)
    (bs : List BlockFrame)
    (hfn : jsGet inst.functions idx = some fn)
    (hstack : inst.callStack = caller :: rest)
    (hblocks : caller.blocks = b :: bs)
    (hlen : fn.args.length ≤ b.items.length) :
    inst.callFunction idx = .ok { inst with callStack :=
      ⟨[⟨(b.items.take fn.args.length).reverse, .pairArr fn.args fn.returns,
          (fn.instructions.length : Int) - 1⟩],
        fn.instructions, fn.locals.map (fun _ => JSVal.i32obj .undef), 0⟩ ::
      { caller with blocks := { b with items := b.items.drop fn.args.length } :: bs } ::
      rest } := by
  obtain ⟨cs, fns, gs⟩ := inst
  simp only at hstack hfn
  subst hstack
  obtain ⟨cblocks, cins, cloc, cpc⟩ := caller
  simp only at hblocks
  subst hblocks
  show Instance.callFunction _ idx = _
  unfold Instance.callFunction
  rw [hfn]
  simp only [CallFrame.create]
  rw [popPushArgs_spec fn.args.length b bs cins cloc cpc
    ⟨[], .pairArr fn.args fn.returns, (fn.instructions.length : Int) - 1⟩ [] fn.instructions
    (fn.locals.map (fun _ => JSVal.i32obj .undef)) 0 hlen]
  simp only [List.append_nil]
  rfl

/-- Witness for C2: the amended theorem applied to the concrete instance of
the counterexample scenario, every hypothesis discharged by rfl or decide. -/
theorem C2_call_arguments_witness :
    jsGet ([⟨[], [], [], [.nop]⟩, ⟨[.i32], [.i32], [], [.nop]⟩] : List Func) 1
        = some ⟨[.i32], [.i32], [], [.nop]⟩
    ∧ ([.i32] : List ValType).length ≤ ([JSVal.i32obj (.int 7)] : Stack).length
    ∧ Instance.callFunction
        ⟨[⟨[⟨[.i32obj (.int 7)], .emptyArr, 0⟩], [.nop], [], 0⟩],
          [⟨[], [], [], [.nop]⟩, ⟨[.i32], [.i32], [], [.nop]⟩], []⟩ 1
      = .ok ⟨[⟨[⟨[.i32obj (.int 7)], .pairArr [.i32] [.i32], 0⟩], [.nop], [], 0⟩,
              ⟨[⟨[], .emptyArr, 0⟩], [.nop], [], 0⟩],
             [⟨[], [], [], [.nop]⟩, ⟨[.i32], [.i32], [], [.nop]⟩], []⟩ :=
  ⟨rfl, by decide,
    C2_call_arguments_go_to_operand_stack
      ⟨[⟨[⟨[.i32obj (.int 7)], .emptyArr, 0⟩], [.nop], [], 0⟩],
        [⟨[], [], [], [.nop]⟩, ⟨[.i32], [.i32], [], [.nop]⟩], []⟩ 1
      ⟨[.i32], [.i32], [], [.nop]⟩
      ⟨[⟨[.i32obj (.int 7)], .emptyArr, 0⟩], [.nop], [], 0⟩ []
      ⟨[.i32obj (.int 7)], .emptyArr, 0⟩ []
      rfl rfl rfl (by decide)⟩

/-- Claim C3: the claim states br_if pops an i32 condition and falls through
(popping no control frame, pc advancing normally) when the condition is zero.
The CODE DOES NOT DO THIS: br_if compares the popped I32 OBJECT itself (it
omits .value, unlike the if instruction) against the number 0 with strict
inequality, and an object is never strictly equal to a number, so br_if
ALWAYS branches.  On [block, i32.const 0, br_if 0, i32.const 10, drop, end],
three steps leave pc = 6 (the frame branched to the end and finished) with
only the root control frame remaining, where fall-through would leave pc = 3
with two control frames. -/
theorem C3_br_if_branches_on_zero :
    ((CallFrame.stepsN 3 (CallFrame.create
        [.block, i32.const 0, .br_if 0, i32.const 10, .drop, .end_] [] .emptyArr)).map
      (fun c => (c.pc, c.blocks.length))) = .ok (6, 1) := rfl

/-- Claim C4 (counterexample): Stack.pop and Stack.peek on the empty stack
RETURN the value undefined (and pop leaves the stack empty); neither throws
any error, let alone a StackUnderflow, contradicting the claim that they
fail and never return a value. -/
theorem C4_counterexample_pop_empty_returns :
    Stack.pop [] = (JSVal.undefined, []) ∧ Stack.peek [] = JSVal.undefined :=
  ⟨rfl, rfl⟩

/-- Claim C4 (amended): pop() and peek() on an empty operand stack do not
fail: both return JS undefined (Array.prototype.pop and .at(-1) semantics),
and pop leaves the stack empty.  No StackUnderflow error exists in the code;
only the typed pop popI32/popType throws on an empty stack, and that error is
the type-expectation error of assertTopIsOfType. -/
theorem C4_empty_pop_peek_return_undefined (s : Stack) (hs : s = []) :
    Stack.pop s = (JSVal.undefined, []) ∧ Stack.peek s = JSVal.undefined
    ∧ Stack.popI32 s = .error .expectedI32OnTop := by
  subst hs
  exact ⟨rfl, rfl, rfl⟩

/-- Witness for C4: the amended theorem applied to the empty stack. -/
theorem C4_empty_pop_peek_witness :
    Stack.pop [] = (JSVal.undefined, []) ∧ Stack.peek [] = JSVal.undefined
    ∧ Stack.popI32 [] = .error .expectedI32OnTop :=
  C4_empty_pop_peek_return_undefined [] rfl

/-- Claim C5 (counterexample): i32.add on the i32 operands 2147483647 and 1
pushes 2147483648 = 2 to the 31, NOT the wrapped-around two's-complement
value -2147483648 required by the claim: the code adds plain JS numbers with
no reduction modulo 2 to the 32. -/
theorem C5_counterexample_add_no_wraparound :
    ((VM.stepsN 3 (VM.new [i32.const 2147483647, i32.const 1, i32.add])).map VM.stack)
      = .ok [.i32obj (.int 2147483648)]
    ∧ JSNum.int 2147483648 ≠ JSNum.int (-2147483648) :=
  ⟨rfl, by decide⟩

/-- Claim C5 (amended): for i32-range operands, i32.add and i32.sub push the
EXACT mathematical sum and difference with no wraparound; i32.mul pushes the
exact mathematical product whenever that product lies in the double-exact
range (magnitude below 2 to the 53; beyond it JS doubles round, which this
integer model does not capture); and i32.div_s with a nonzero divisor pushes
the quotient truncated toward zero (Int.tdiv).  No result is reduced modulo
2 to the 32 or reinterpreted as a signed 32-bit integer. -/
theorem C5_arithmetic_exact_no_wraparound (a b : Int)
    (ha₁ : -(2 ^ 31) ≤ a) (ha₂ : a < 2 ^ 31)
    (hb₁ : -(2 ^ 31) ≤ b) (hb₂ : b < 2 ^ 31) :
    ((VM.stepsN 3 (VM.new [i32.const a, i32.const b, i32.add])).map VM.stack)
        = .ok [.i32obj (.int (a + b))]
    ∧ ((VM.stepsN 3 (VM.new [i32.const a, i32.const b, i32.sub])).map VM.stack)
        = .ok [.i32obj (.int (a - b))]
    ∧ ((a * b).natAbs < 2 ^ 53 →
        ((VM.stepsN 3 (VM.new [i32.const a, i32.const b, i32.mul])).map VM.stack)
          = .ok [.i32obj (.int (a * b))])
    ∧ (b ≠ 0 →
        ((VM.stepsN 3 (VM.new [i32.const a, i32.const b, i32.div_s])).map VM.stack)
          = .ok [.i32obj (.int (a.tdiv b))]) := by
  refine ⟨rfl, rfl, fun _ => rfl, fun hb => ?_⟩
  have h1 : ((VM.stepsN 3 (VM.new [i32.const a, i32.const b, i32.div_s])).map VM.stack)
      = .ok [.i32obj (jsTruncDiv (.int a) (.int b))] := rfl
  rw [h1]
  simp [jsTruncDiv, hb]

/-- Witness for C5: the amended theorem applied at a = 7, b = -2, all
hypotheses discharged by norm_num or decide. -/
theorem C5_arithmetic_witness :
    (-(2 ^ 31) ≤ (7 : Int) ∧ (7 : Int) < 2 ^ 31
      ∧ -(2 ^ 31) ≤ (-2 : Int) ∧ (-2 : Int) < 2 ^ 31 ∧ (-2 : Int) ≠ 0
      ∧ ((7 : Int) * -2).natAbs < 2 ^ 53)
    ∧ ((VM.stepsN 3 (VM.new [i32.const 7, i32.const (-2), i32.add])).map VM.stack)
        = .ok [.i32obj (.int 5)]
    ∧ ((VM.stepsN 3 (VM.new [i32.const 7, i32.const (-2), i32.sub])).map VM.stack)
        = .ok [.i32obj (.int 9)]
    ∧ ((VM.stepsN 3 (VM.new [i32.const 7, i32.const (-2), i32.mul])).map VM.stack)
        = .ok [.i32obj (.int (-14))]
    ∧ ((VM.stepsN 3 (VM.new [i32.const 7, i32.const (-2), i32.div_s])).map VM.stack)
        = .ok [.i32obj (.int (-3))] := by
  have h := C5_arithmetic_exact_no_wraparound 7 (-2)
    (by norm_num) (by norm_num) (by norm_num) (by norm_num)
  exact ⟨⟨by norm_num, by norm_num, by norm_num, by norm_num, by norm_num, by norm_num⟩,
    h.1, h.2.1, h.2.2.1 (by norm_num), h.2.2.2 (by norm_num)⟩

/-- Claim C6 (counterexample): callFunction(0) on an Instance with no
registered functions fails with a TypeError (functions[0] is undefined and
reading fn.instructions throws); there is no InvalidFunctionIndex error in
the code (the error type of the model has no such constructor because the
source has no such throw site). -/
theorem C6_counterexample_call_invalid_index :
    Instance.new.callFunction 0 = .error .typeError := rfl

/-- Claim C6 (amended): for every index that is negative or not below the
number of registered functions, callFunction(index) fails, but with a generic
TypeError caused by reading properties of the undefined lookup result, not
with a dedicated InvalidFunctionIndex error: the source performs no function
index validation. -/
theorem C6_invalid_function_index_typeerror (inst : Instance) (idx : Int)
    (h : idx < 0 ∨ (inst.functions.length : Int) ≤ idx) :
    inst.callFunction idx = .error .typeError := by
  have hj : jsGet inst.functions idx = none := by
    unfold jsGet
    rcases h with h | h
    · simp [h]
    · have h0 : ¬ idx < 0 := by omega
      simp only [h0, if_false]
      exact List.get?_eq_none.mpr (by omega)
  unfold Instance.callFunction
  rw [hj]

/-- Witness for C6: the amended theorem applied to an empty Instance at
index 0. -/
theorem C6_invalid_function_index_witness :
    ((0 : Int) < 0 ∨ ((Instance.new.functions.length : Int) ≤ 0))
    ∧ Instance.new.callFunction 0 = .error .typeError :=
  ⟨Or.inr (by simp [Instance.new]),
    C6_invalid_function_index_typeerror Instance.new 0 (Or.inr (by simp [Instance.new]))⟩

/-- Claim C7: the claim states that global.get fails with an
InvalidGlobalIndex error on an out-of-range index.  The local.* instructions
and global.set do validate and fail as claimed, but global.get calls
assertLocalIndexInRange (a copy-paste slip: assertGlobalIndexInRange exists
directly above it and is used by global.set), so an out-of-range global.get
throws the Invalid local index error kind: with one global, global.get(1)
fails with invalidLocalIndex 1, while global.set(1) correctly fails with
invalidGlobalIndex 1 and local.get/set/tee(1) with one local correctly fail
with invalidLocalIndex 1. -/
theorem C7_global_get_raises_local_index_error :
    (Instance.step ⟨[CallFrame.create [.globalGet 1] [] .emptyArr], [],
        [.i32obj (.int 100)]⟩) = .error (.invalidLocalIndex 1)
    ∧ (Instance.stepsN 2 ⟨[CallFrame.create [i32.const 1, .globalSet 1] [] .emptyArr], [],
        [.i32obj (.int 100)]⟩) = .error (.invalidGlobalIndex 1)
    ∧ (CallFrame.stepsN 1 (CallFrame.create [.localGet 1] [.i32obj (.int 0)] .emptyArr))
        = .error (.invalidLocalIndex 1)
    ∧ (CallFrame.stepsN 2 (CallFrame.create [i32.const 1, .localSet 1]
        [.i32obj (.int 0)] .emptyArr)) = .error (.invalidLocalIndex 1)
    ∧ (CallFrame.stepsN 2 (CallFrame.create [i32.const 1, .localTee 1]
        [.i32obj (.int 0)] .emptyArr)) = .error (.invalidLocalIndex 1) :=
  ⟨rfl, rfl, rfl, rfl, rfl⟩

/-- Claim C8 (counterexample): executing i32.div_s with dividend 1 and
divisor 0 does NOT fail: it pushes an I32 object wrapping the JS value
Infinity onto the stack, contradicting the claim that it fails with a fatal
DivisionByZero error and pushes nothing. -/
theorem C8_counterexample_div_by_zero_no_error :
    ((VM.stepsN 3 (VM.new [i32.const 1, i32.const 0, i32.div_s])).map VM.stack)
      = .ok [.i32obj .inf] := rfl

/-- Claim C8 (amended): executing i32.div_s when the divisor (top-of-stack
operand) is zero does not fail; it pushes an I32 whose value is the JS
division result: Infinity for a positive dividend, -Infinity for a negative
dividend, and NaN for dividend zero — a non-integer result rather than a
fatal DivisionByZero error. -/
theorem C8_div_by_zero_pushes_nonfinite (c1 : Int) :
    ((VM.stepsN 3 (VM.new [i32.const c1, i32.const 0, i32.div_s])).map VM.stack)
      = .ok [.i32obj (if 0 < c1 then .inf else if c1 < 0 then .negInf else .nan)] := rfl

/-- Claim C9: for a call frame whose instructions contain loop at position p
immediately followed by br(0) and end, each step that executes the br(0) sets
the frame's pc back to the loop instruction's position p (the loop pushed a
control frame with branch target p - 1, br(0) pops it and sets pc to p - 1,
and the step increment restores p), so after n steps the pc is p for even n
and p + 1 for odd n: execution re-enters the loop from the top forever and
never advances past the br(0) to the end. -/
theorem C9_loop_br_reenters_loop_header (cf : CallFrame) (p : Int)
    (hpc : cf.pc = p)
    (hloop : jsGet cf.instructions p = some .loop)
    (hbr : jsGet cf.instructions (p + 1) = some (.br 0))
    (hend : jsGet cf.instructions (p + 2) = some .end_) :
    ∀ n : Nat, CallFrame.stepsN n cf =
      .ok (if n % 2 = 0 then cf
           else { cf with blocks := ⟨[], .emptyArr, p - 1⟩ :: cf.blocks, pc := p + 1 }) := by
  have h2 := loop_br_two_step cf p hpc hloop hbr
  intro n
  induction n with
  | zero => rfl
  | succ n ih =>
      have hs : CallFrame.stepsN (n + 1) cf =
          (CallFrame.stepsN n cf) >>= CallFrame.step := rfl
      rw [hs, ih]
      by_cases hn : n % 2 = 0
      · have h1 : (n + 1) % 2 = 1 := by omega
        rw [hn, h1, if_pos rfl, if_neg (by decide)]
        show cf.step = _
        exact h2.1
      · have h0 : n % 2 = 1 := by omega
        have h1 : (n + 1) % 2 = 0 := by omega
        rw [h0, h1, if_neg (by decide), if_pos rfl]
        show CallFrame.step _ = _
        exact h2.2

/-- Witness for C9: the theorem applied to the concrete frame
[loop, br 0, end] with p = 0 and n = 3, every hypothesis discharged by
rfl. -/
theorem C9_loop_br_witness :
    (CallFrame.create [Instr.loop, .br 0, .end_] [] .emptyArr).pc = 0
    ∧ jsGet (CallFrame.create [Instr.loop, .br 0, .end_] [] .emptyArr).instructions 0
        = some .loop
    ∧ jsGet (CallFrame.create [Instr.loop, .br 0, .end_] [] .emptyArr).instructions (0 + 1)
        = some (.br 0)
    ∧ jsGet (CallFrame.create [Instr.loop, .br 0, .end_] [] .emptyArr).instructions (0 + 2)
        = some .end_
    ∧ CallFrame.stepsN 3 (CallFrame.create [Instr.loop, .br 0, .end_] [] .emptyArr) =
        .ok (if 3 % 2 = 0 then CallFrame.create [Instr.loop, .br 0, .end_] [] .emptyArr
             else { CallFrame.create [Instr.loop, .br 0, .end_] [] .emptyArr with
                      blocks := ⟨[], .emptyArr, 0 - 1⟩ ::
                        (CallFrame.create [Instr.loop, .br 0, .end_] [] .emptyArr).blocks,
                      pc := 0 + 1 }) :=
  ⟨rfl, rfl, rfl, rfl,
    C9_loop_br_reenters_loop_header
      (CallFrame.create [Instr.loop, .br 0, .end_] [] .emptyArr) 0 rfl rfl rfl rfl 3⟩

/-- Claim C10: every instruction built by binop (and hence the relop family,
which is defined through binop) pops the top of the current operand stack as
the second operand c2, then pops the next value as the first operand c1, and
pushes op(c1, c2); in particular i32.sub pushes second-from-top minus top and
i32.div_s computes second-from-top divided by top (here a is second from the
top and b is the top). -/
theorem C10_binop_pops_c2_then_c1 (f : JSNum → JSNum → JSNum)
    (g : JSNum → JSNum → Bool) (x y : JSNum) (a b : Int) (s : Stack) :
    binopEval f (.i32obj x :: .i32obj y :: s) = .ok (.i32obj (f y x) :: s)
    ∧ relopEval g (.i32obj x :: .i32obj y :: s)
        = .ok (.i32obj (if g y x then .int 1 else .int 0) :: s)
    ∧ binopEval jsSub (.i32obj (.int b) :: .i32obj (.int a) :: s)
        = .ok (.i32obj (.int (a - b)) :: s)
    ∧ binopEval jsTruncDiv (.i32obj (.int b) :: .i32obj (.int a) :: s)
        = .ok (.i32obj (jsTruncDiv (.int a) (.int b)) :: s) :=
  ⟨rfl, rfl, rfl, rfl⟩

end WasmVM
